import Mathlib

/-!
Verification of the inference-configuration compatibility and migration
engine of the pocketpal-ai repository, shallowly embedded in Lean 4.

The embedding follows the TypeScript sources:
  * `src/utils/flashAttnCompatibility.ts` — backend resolver
    (`inferBackendType`), compatibility rule engine (`isCacheTypeVSafe`),
    schema migrator (`migrateContextInitParams`), validator
    (`validateContextInitParams`) and default factory
    (`createDefaultContextInitParams`);
  * `src/utils/deviceSelection.ts` — capability probe wrapper
    (`getAvailableDevices`) and device catalog builder (`getDeviceOptions`);
  * the settings screen's `handleDeviceSelect` handler.

Platform conditionals (`Platform.OS === 'ios'` / `'android'`) are threaded
as an explicit `Platform` parameter, and the capability probe's result is
threaded as an explicit `Except`-shaped parameter, so every function is a
pure total Lean function.
-/

set_option maxHeartbeats 1000000

/-- `Platform.OS` of react-native: the two platforms the app ships on plus
a catch-all for any other value of `Platform.OS`. -/
inductive Platform where
  | ios
  | android
  | web
deriving DecidableEq, Repr, Fintype

/-- The `FlashAttnType` union type: `'auto' | 'on' | 'off'`. -/
inductive FlashAttnType where
  | auto
  | on
  | off
deriving DecidableEq, Repr, Fintype

/-- The `BackendType` union type:
`'metal' | 'opencl' | 'hexagon' | 'cpu' | 'blas'`. -/
inductive BackendType where
  | metal
  | opencl
  | hexagon
  | cpu
  | blas
deriving DecidableEq, Repr, Fintype

/-- The closed `CacheType` enum (8 members). -/
inductive CacheType where
  | f16
  | f32
  | q8_0
  | q5_1
  | q5_0
  | q4_1
  | q4_0
  | iq4_nl
deriving DecidableEq, Repr, Fintype

/-- Modelled from the spec: `src/utils/types.ts` (not among the provided
sources) defines `CacheType` as a string enum whose values the spec names
as the closed set `{f16, f32, q8_0, q5_1, q5_0, q4_1, q4_0, iq4_nl}`;
this is the runtime string value of each enum member. -/
def CacheType.toStr : CacheType → String
  | .f16 => "f16"
  | .f32 => "f32"
  | .q8_0 => "q8_0"
  | .q5_1 => "q5_1"
  | .q5_0 => "q5_0"
  | .q4_1 => "q4_1"
  | .q4_0 => "q4_0"
  | .iq4_nl => "iq4_nl"

/-- The verdict object `{safe: boolean; reason?: string}` returned by the
compatibility validators. -/
structure SafetyVerdict where
  safe : Bool
  reason : Option String
deriving DecidableEq, Repr

/-- `isPre sub l` : is `sub` an initial segment of `l`?  (Char-list level
helper used to express substring containment of reason strings.) -/
def isPre : List Char → List Char → Bool
  | [], _ => true
  | _ :: _, [] => false
  | a :: as, b :: bs => a == b && isPre as bs

/-- `containsSub s sub` : does the string `s` contain `sub` as a
contiguous substring? (JavaScript `String.prototype.includes`.) -/
def containsSub (s sub : String) : Bool :=
  go s.toList sub.toList
where
  go : List Char → List Char → Bool
    | l, sub' =>
      match l with
      | [] => sub'.isEmpty
      | _ :: rest => isPre sub' l || go rest sub'

/-- A JavaScript runtime value, as far as the configuration blobs are
concerned: primitives, arrays and plain objects. -/
inductive JSVal where
  | undef
  | null
  | bool (b : Bool)
  | num (n : Int)
  | str (s : String)
  | arr (xs : List JSVal)
  | obj (fields : List (String × JSVal))

/-- A JavaScript object: an ordered association list of own properties.
JavaScript objects keep (string-keyed) properties in insertion order;
assignment to an existing key keeps its position, assignment to a fresh
key appends. -/
abbrev JSObj := List (String × JSVal)

/-- Property read `o[k]`: `undefined` when the key is absent. -/
def jsGet : JSObj → String → JSVal
  | [], _ => .undef
  | (k', v') :: rest, k => if k' == k then v' else jsGet rest k

/-- The `in` operator: is `k` an own property of the object (even when its
value is `undefined`)? -/
def jsHas : JSObj → String → Bool
  | [], _ => false
  | (k', _) :: rest, k => k' == k || jsHas rest k

/-- Property assignment `o[k] = v`: replaces the (first) binding in place,
or appends a fresh binding. -/
def jsSet : JSObj → String → JSVal → JSObj
  | [], k, v => [(k, v)]
  | (k', v') :: rest, k, v =>
    if k' == k then (k', v) :: rest else (k', v') :: jsSet rest k v

/-- The `delete` operator: removes the binding for `k`. -/
def jsDel : JSObj → String → JSObj
  | [], _ => []
  | (k', v') :: rest, k =>
    if k' == k then jsDel rest k else (k', v') :: jsDel rest k

/-- JavaScript falsiness: `undefined`, `null`, `false`, `0`, `''` are
falsy; every object or array is truthy. -/
def isFalsyB : JSVal → Bool
  | .undef => true
  | .null => true
  | .bool b => !b
  | .num n => n == 0
  | .str s => s == ""
  | .arr _ => false
  | .obj _ => false

/-- Strict equality against the literal `undefined`. -/
def isUndefB : JSVal → Bool
  | .undef => true
  | _ => false

/-- Strict equality `v === s` against a string literal. -/
def isStrB (v : JSVal) (s : String) : Bool :=
  match v with
  | .str t => t == s
  | _ => false

/-- Strict equality `v === n` against a number literal. -/
def isNumB (v : JSVal) (n : Int) : Bool :=
  match v with
  | .num m => m == n
  | _ => false

/-- `typeof v === 'boolean'`. -/
def isBoolB : JSVal → Bool
  | .bool _ => true
  | _ => false

/-- Strict equality `v === true` (also the truthiness of a value known to
be a boolean). -/
def isTrueB : JSVal → Bool
  | .bool b => b
  | _ => false

/-- Object spread `{...v}` of an arbitrary value: objects copy their own
properties, arrays and strings spread to index-keyed properties, every
other primitive spreads to the empty object. -/
def toFields : JSVal → JSObj
  | .obj f => f
  | .arr xs => (xs.enum).map (fun p => (toString p.1, p.2))
  | .str s => (s.toList.enum).map (fun p => (toString p.1, JSVal.str (String.mk [p.2])))
  | _ => []

/-! ## Compatibility rule engine (`flashAttnCompatibility.ts`) -/

/-- `isQuantizedCacheType` from the source: F16 and F32 are non-quantized,
everything else is quantized.  The source compares against both the
`CacheType` enum members and the plain strings `'f16'`/`'f32'`; since the
enum members' runtime values are those very strings, the four comparisons
collapse to two. -/
def isQuantizedCacheType (cacheType : String) : Bool :=
  cacheType != "f16" && cacheType != "f32"

/-- `isCacheTypeVSafe` from the source: validates whether `cache_type_v`
is safe with the given flash-attention configuration and backend. -/
def isCacheTypeVSafe (cacheTypeV : String) (flashAttnType : FlashAttnType)
    (backend : BackendType) : SafetyVerdict :=
  let isQuantizedV := isQuantizedCacheType cacheTypeV
  if !isQuantizedV then
    { safe := true, reason := none }
  else if flashAttnType == .off then
    { safe := false
      reason := some "Quantized V cache requires flash attention to be enabled" }
  else if flashAttnType == .on then
    if backend == .opencl then
      { safe := false
        reason := some "OpenCL does not support flash attention (required for quantized V cache)" }
    else if backend == .hexagon then
      { safe := false
        reason := some "Hexagon flash attention support varies by device (use \"off\" with F16/F32 for safety)" }
    else
      { safe := true, reason := none }
  else
    if backend == .opencl then
      { safe := false
        reason := some "OpenCL auto-disables flash attention, quantized V cache will fail at runtime" }
    else if backend == .hexagon then
      { safe := false
        reason := some "Hexagon flash attention support varies by device; quantized V cache may fail at runtime" }
    else
      { safe := true, reason := none }

/-- `isCacheTypeKSafe` from the source: cache type K is allowed in every
combination. -/
def isCacheTypeKSafe (_cacheTypeK : String) (_flashAttnType : FlashAttnType)
    (_backend : BackendType) : SafetyVerdict :=
  { safe := true, reason := none }

/-- The safe/unsafe bit of the V-cache rule table of spec §4.4, written
down row by row from the spec's table (not from the code). -/
def specVSafe (ct : CacheType) (fa : FlashAttnType) (be : BackendType) : Bool :=
  match ct with
  | .f16 => true
  | .f32 => true
  | _ =>
    match fa, be with
    | .off, _ => false
    | .on, .opencl => false
    | .on, .hexagon => false
    | .on, _ => true
    | .auto, .opencl => false
    | .auto, .hexagon => false
    | .auto, _ => true

/-- The reason snippets the claim requires for the quantized `on`/`auto`
rows on the `opencl` and `hexagon` backends, quoted from the spec's §4.4
table (the claim attaches a reason-string requirement only to those
rows). -/
def specVSnippet (ct : CacheType) (fa : FlashAttnType) (be : BackendType) :
    Option String :=
  match ct with
  | .f16 => none
  | .f32 => none
  | _ =>
    match fa, be with
    | .on, .opencl => some "OpenCL does not support flash attention"
    | .on, .hexagon => some "Hexagon flash attention support varies by device"
    | .auto, .opencl => some "OpenCL auto-disables flash attention"
    | .auto, .hexagon => some "Hexagon flash attention support varies by device"
    | _, _ => none

/-! ## Schema migrator (`flashAttnCompatibility.ts`, context-params part) -/

/-- `CURRENT_CONTEXT_INIT_PARAMS_VERSION` from the source. -/
def CURRENT_CONTEXT_INIT_PARAMS_VERSION : String := "2.0"

/-- The initial step of `migrateContextInitParams`: if no `version` is
specified (`=== undefined`), assume legacy and stamp `'0.0'`. -/
def stampLegacyVersion (m : JSObj) : JSObj :=
  if isUndefB (jsGet m "version") then jsSet m "version" (.str "0.0") else m

/-- The `'0.0' → '1.0'` migration step: rename `n_context` to `n_ctx`,
default `use_mlock`, `use_mmap` (coercing a boolean to its string form)
and `no_gpu_devices`, then stamp version `'1.0'`.  Fires when the version
is `'0.0'` or falsy, exactly as the source's condition
`migratedParams.version === '0.0' || !migratedParams.version`. -/
def migrateStep00 (plat : Platform) (m : JSObj) : JSObj :=
  if isStrB (jsGet m "version") "0.0" || isFalsyB (jsGet m "version") then
    let m := if jsHas m "n_context" && !(jsHas m "n_ctx") then
        jsDel (jsSet m "n_ctx" (jsGet m "n_context")) "n_context"
      else m
    let m := if isUndefB (jsGet m "use_mlock") then
        jsSet m "use_mlock" (.bool false)
      else m
    let m := if isUndefB (jsGet m "use_mmap") then
        jsSet m "use_mmap" (.str (if plat == .android then "smart" else "true"))
      else if isBoolB (jsGet m "use_mmap") then
        jsSet m "use_mmap" (.str (if isFalsyB (jsGet m "use_mmap") then "false" else "true"))
      else m
    let m := if isUndefB (jsGet m "no_gpu_devices") then
        jsSet m "no_gpu_devices" (.bool false)
      else m
    jsSet m "version" (.str "1.0")
  else m

/-- The `'1.0' → '2.0'` migration step: convert `no_gpu_devices` into the
new `devices`/`n_gpu_layers` model, convert a boolean `flash_attn` into
`flash_attn_type` (or default it per platform), add `kv_unified` and
`n_parallel` defaults, bump the old default `n_ctx = 1024` to `2048`,
then stamp version `'2.0'`. -/
def migrateStep10 (plat : Platform) (m : JSObj) : JSObj :=
  if isStrB (jsGet m "version") "1.0" then
    let m := if jsHas m "no_gpu_devices" then
        if isTrueB (jsGet m "no_gpu_devices") then
          jsSet (jsSet m "n_gpu_layers" (.num 0)) "devices" .undef
        else
          let m := jsSet m "devices" .undef
          if isUndefB (jsGet m "n_gpu_layers") || isNumB (jsGet m "n_gpu_layers") 0 then
            jsSet m "n_gpu_layers" (.num 99)
          else m
      else m
    let m := if jsHas m "flash_attn" && isBoolB (jsGet m "flash_attn") then
        if isTrueB (jsGet m "flash_attn") then
          jsSet m "flash_attn_type" (.str (if plat == .ios then "auto" else "off"))
        else
          jsSet m "flash_attn_type" (.str "off")
      else if isFalsyB (jsGet m "flash_attn_type") then
        jsSet m "flash_attn_type" (.str (if plat == .ios then "auto" else "off"))
      else m
    let m := if isUndefB (jsGet m "kv_unified") then
        jsSet m "kv_unified" (.bool true)
      else m
    let m := if isUndefB (jsGet m "n_parallel") then
        jsSet m "n_parallel" (.num 1)
      else m
    let m := if isNumB (jsGet m "n_ctx") 1024 then
        jsSet m "n_ctx" (.num 2048)
      else m
    jsSet m "version" (.str "2.0")
  else m

/-- `migrateContextInitParams` from the source: clone the input, infer the
starting version, apply the migration steps in order, and stamp the final
version unconditionally. -/
def migrateContextInitParams (plat : Platform) (params : JSObj) : JSObj :=
  jsSet (migrateStep10 plat (migrateStep00 plat (stampLegacyVersion params)))
    "version" (.str CURRENT_CONTEXT_INIT_PARAMS_VERSION)

/-- The field list `requiredFields` of `validateContextInitParams`. -/
def requiredFields : List String :=
  ["version", "n_ctx", "n_batch", "n_ubatch", "n_threads", "cache_type_k",
   "cache_type_v", "n_gpu_layers", "use_mlock", "use_mmap"]

/-- `validateContextInitParams` from the source: `true` iff every field of
`requiredFields` is present (`field in params`); the v2.0 fields
`kv_unified`, `n_parallel`, `devices` and `flash_attn_type` are
deliberately not required. -/
def validateContextInitParams (params : JSObj) : Bool :=
  requiredFields.all (fun field => jsHas params field)

/-- `createDefaultContextInitParams` from the source: the conservative
default configuration, used as the fallback when a persisted blob is
corrupted. -/
def createDefaultContextInitParams (plat : Platform) : JSObj :=
  [("version", .str CURRENT_CONTEXT_INIT_PARAMS_VERSION),
   ("n_ctx", .num 2048),
   ("n_batch", .num 512),
   ("n_ubatch", .num 512),
   ("n_threads", .num 4),
   ("cache_type_k", .str "f16"),
   ("cache_type_v", .str "f16"),
   ("n_gpu_layers", .num 99),
   ("use_mlock", .bool false),
   ("use_mmap", .str (if plat == .android then "smart" else "true")),
   ("devices", .undef),
   ("flash_attn_type", .str (if plat == .ios then "auto" else "off")),
   ("kv_unified", .bool true),
   ("n_parallel", .num 1)]

/-- Modelled from the spec: the storage-loading pipeline (§4.1 / §7) that
surrounds the migrator is not among the provided sources (only the
migrator, validator and default factory are); per §7 a malformed
persisted configuration "is handled by falling back to
`createDefaultContextInitParams()` rather than surfacing an error".  The
pipeline migrates the blob (the spread `{...params}` of an arbitrary
value never throws, so migration itself is total) and falls back to the
default when the result fails structural validation. -/
def loadContextInitParams (plat : Platform) (blob : JSVal) : JSObj :=
  let migrated := migrateContextInitParams plat (toFields blob)
  if validateContextInitParams migrated then migrated
  else createDefaultContextInitParams plat

/-- Split a character list at every `'.'`. -/
def splitOnDot : List Char → List (List Char)
  | [] => [[]]
  | c :: cs =>
    let r := splitOnDot cs
    if c == '.' then [] :: r
    else
      match r with
      | [] => [[c]]
      | h :: t => (c :: h) :: t

/-- Read a non-empty digit string as a natural number. -/
def digitsToNat : List Char → Option Nat
  | [] => none
  | l =>
    if l.all Char.isDigit then
      some (l.foldl (fun n c => 10 * n + (c.toNat - 48)) 0)
    else none

/-- Parse a schema-version tag `"major.minor"` into a pair of naturals. -/
def parseVersion (s : String) : Option (Nat × Nat) :=
  match splitOnDot s.toList with
  | [a, b] =>
    match digitsToNat a, digitsToNat b with
    | some x, some y => some (x, y)
    | _, _ => none
  | _ => none

/-- `versionLe v w`: both tags parse and `v` is not a later schema
version than `w` (major-then-minor order). -/
def versionLe (v w : String) : Bool :=
  match parseVersion v, parseVersion w with
  | some p, some q => p.1 < q.1 || (p.1 == q.1 && p.2 ≤ q.2)
  | _, _ => false

/-- ASCII lowercasing of a character (`String.prototype.toLowerCase` on
the ASCII device identifiers the sources compare). -/
def charToLower : Char → Char
  | 'A' => 'a' | 'B' => 'b' | 'C' => 'c' | 'D' => 'd' | 'E' => 'e'
  | 'F' => 'f' | 'G' => 'g' | 'H' => 'h' | 'I' => 'i' | 'J' => 'j'
  | 'K' => 'k' | 'L' => 'l' | 'M' => 'm' | 'N' => 'n' | 'O' => 'o'
  | 'P' => 'p' | 'Q' => 'q' | 'R' => 'r' | 'S' => 's' | 'T' => 't'
  | 'U' => 'u' | 'V' => 'v' | 'W' => 'w' | 'X' => 'x' | 'Y' => 'y'
  | 'Z' => 'z'
  | c => c

/-- `s.toLowerCase()` over ASCII. -/
def strToLower (s : String) : String :=
  String.mk (s.toList.map charToLower)

/-- `s.startsWith(p)` (also used for the optional-chained
`deviceName?.startsWith`). -/
def strStarts (s p : String) : Bool :=
  isPre p.toList s.toList

/-! ## Capability probe and backend resolver -/

/-- `NativeBackendDeviceInfo` as consumed by the sources: a device record
with an (optional) `deviceName` and a `type` tag (`'cpu'|'gpu'|'npu'`). -/
structure NativeDev where
  deviceName : Option String
  type : String
deriving DecidableEq, Repr

/-- The raw outcome of the native `getBackendDevicesInfo()` call:
either it throws, or it resolves to a possibly-null device list. -/
abbrev ProbeOutcome := Except Unit (Option (List NativeDev))

/-- `getAvailableDevices` from `deviceSelection.ts`: returns the probe's
device list, an empty list when the probe resolves to a null/undefined
value (`devices || []`), and an empty list when the probe throws
(the `catch` branch). -/
def getAvailableDevices : ProbeOutcome → List NativeDev
  | .error _ => []
  | .ok none => []
  | .ok (some ds) => ds

/-- `inferBackendType` from the source: determines the backend from the
`devices` array alone; when `devices` is absent or empty, iOS always
resolves to Metal, while every other platform consults the capability
probe and picks OpenCL exactly when some device reports `type = 'gpu'`. -/
def inferBackendType (plat : Platform) (devices : Option (List String))
    (probe : ProbeOutcome) : BackendType :=
  match devices with
  | some (primaryDevice :: _) =>
    let deviceLower := strToLower primaryDevice
    if deviceLower == "metal" then .metal
    else if deviceLower == "cpu" then .cpu
    else if strStarts primaryDevice "HTP" then .hexagon
    else if plat == .android then .opencl
    else .cpu
  | _ =>
    if plat == .ios then .metal
    else
      let availableDevices := getAvailableDevices probe
      if availableDevices.any (fun d => d.type == "gpu") then .opencl
      else .cpu

/-! ## Device catalog builder (`deviceSelection.ts`) -/

/-- The `id` field of a `DeviceOption`. -/
inductive DeviceOptionId where
  | auto
  | gpu
  | hexagon
  | cpu
deriving DecidableEq, Repr

/-- The `DeviceOption` interface of `deviceSelection.ts` (UI labels kept,
the optional `tag`/`experimental` markers kept as options). -/
structure DeviceOption where
  id : DeviceOptionId
  label : String
  description : String
  devices : Option (List String)
  n_gpu_layers : Int
  default_flash_attn_type : FlashAttnType
  valid_flash_attn_types : List FlashAttnType
  tag : Option String
  experimental : Option Bool
  platform : String
  deviceInfo : Option NativeDev
deriving DecidableEq, Repr

/-- The iOS `auto` option pushed by `getDeviceOptions`. -/
def iosAutoOption : DeviceOption :=
  { id := .auto
    label := "Auto"
    description := "Automatically selects Metal GPU (Recommended)"
    devices := none
    n_gpu_layers := 99
    default_flash_attn_type := .auto
    valid_flash_attn_types := [.auto, .on, .off]
    tag := some "Recommended"
    experimental := none
    platform := "ios"
    deviceInfo := none }

/-- The iOS `gpu` (explicit Metal) option pushed by `getDeviceOptions`. -/
def iosGpuOption : DeviceOption :=
  { id := .gpu
    label := "Metal"
    description := "Explicitly use Metal GPU acceleration"
    devices := some ["Metal"]
    n_gpu_layers := 99
    default_flash_attn_type := .auto
    valid_flash_attn_types := [.auto, .on, .off]
    tag := none
    experimental := none
    platform := "ios"
    deviceInfo := none }

/-- The iOS `cpu` option pushed by `getDeviceOptions`. -/
def iosCpuOption : DeviceOption :=
  { id := .cpu
    label := "CPU"
    description := "CPU only (slower, for testing or compatibility)"
    devices := some ["CPU"]
    n_gpu_layers := 0
    default_flash_attn_type := .auto
    valid_flash_attn_types := [.auto, .on, .off]
    tag := none
    experimental := none
    platform := "ios"
    deviceInfo := none }

/-- The Android `cpu` option pushed by `getDeviceOptions` (always
present, recommended for reliability). -/
def androidCpuOption : DeviceOption :=
  { id := .cpu
    label := "CPU"
    description := "CPU only (Slowest, but works with all models)"
    devices := some ["CPU"]
    n_gpu_layers := 0
    default_flash_attn_type := .off
    valid_flash_attn_types := [.auto, .on, .off]
    tag := some "Recommended"
    experimental := none
    platform := "android"
    deviceInfo := none }

/-- The Android `gpu` (OpenCL) option pushed by `getDeviceOptions` when
the probe reports a gpu-typed device. -/
def androidGpuOption (gpuDev : NativeDev) : DeviceOption :=
  { id := .gpu
    label := "GPU (OpenCL)"
    description := "OpenCL GPU acceleration (Only for Q4_0/Q6_K models)"
    devices := some [gpuDev.deviceName.getD ""]
    n_gpu_layers := 99
    default_flash_attn_type := .off
    valid_flash_attn_types := [.off]
    tag := some "Fastest"
    experimental := none
    platform := "android"
    deviceInfo := some gpuDev }

/-- The Android `hexagon` option pushed by `getDeviceOptions` when the
probe reports an HTP device. -/
def androidHexagonOption (dev : Option NativeDev) : DeviceOption :=
  { id := .hexagon
    label := "Hexagon"
    description := "Qualcomm NPU (Experimental, fastest but may be unstable)"
    devices := some ["HTP*"]
    n_gpu_layers := 99
    default_flash_attn_type := .off
    valid_flash_attn_types := [.off]
    tag := some "Experimental"
    experimental := some true
    platform := "android"
    deviceInfo := dev }

/-- The gpu-device predicate of `getDeviceOptions`: `d.type === 'gpu'`. -/
def isGpuDev (d : NativeDev) : Bool :=
  d.type == "gpu"

/-- The Hexagon-device predicate of `getDeviceOptions`:
`d.deviceName?.startsWith('HTP')`. -/
def isHTPDev (d : NativeDev) : Bool :=
  strStarts (d.deviceName.getD "") "HTP"

/-- The Android branch of `getDeviceOptions`: always push the CPU option,
append a GPU option when some device is gpu-typed (the first such device)
and a Hexagon option when some device name starts with `"HTP"`. -/
def androidDeviceOptions (devices : List NativeDev) : List DeviceOption :=
  let hexagonDevs := devices.filter isHTPDev
  let hasHexagon := hexagonDevs.length > 0
  let gpuDev := devices.find? isGpuDev
  [androidCpuOption]
    ++ (match gpuDev with
        | some g => [androidGpuOption g]
        | none => [])
    ++ (if hasHexagon then [androidHexagonOption hexagonDevs.head?] else [])

/-- `getDeviceOptions` from the source: iOS always yields the three fixed
options; every other platform takes the Android path. -/
def getDeviceOptions (plat : Platform) (probe : ProbeOutcome) :
    List DeviceOption :=
  if plat == .ios then
    [iosAutoOption, iosGpuOption, iosCpuOption]
  else
    androidDeviceOptions (getAvailableDevices probe)

/-! ## Device-selection handler (settings screen) -/

/-- The slice of the model store's `contextInitParams` that
`handleDeviceSelect` reads and writes: the selected `devices` and the
configured `flash_attn_type` (`none` when unset, read through
`?? (Platform.OS === 'ios' ? 'auto' : 'off')`). -/
structure SelectState where
  devices : Option (List String)
  flash_attn_type : Option FlashAttnType
deriving DecidableEq, Repr

/-- `handleDeviceSelect` from the settings screen: stores the option's
devices, then resets `flash_attn_type` to the option's default exactly
when the current value (or its platform default when unset) is not in the
option's `valid_flash_attn_types`; otherwise the user's preference is
kept. -/
def currentFlashAttn (plat : Platform) (st : SelectState) : FlashAttnType :=
  st.flash_attn_type.getD (if plat == .ios then .auto else .off)

/-- `handleDeviceSelect` continued: the conditional reset itself. -/
def handleDeviceSelect (plat : Platform) (option : DeviceOption)
    (st : SelectState) : SelectState :=
  let st := { st with devices := option.devices }
  if !(option.valid_flash_attn_types.contains (currentFlashAttn plat st)) then
    { st with flash_attn_type := some option.default_flash_attn_type }
  else
    st

/-! ## Helper lemmas on JavaScript object operations -/

theorem jsGet_jsSet_self (m : JSObj) (k : String) (v : JSVal) :
    jsGet (jsSet m k v) k = v := by
  induction m with
  | nil => simp [jsSet, jsGet]
  | cons hd tl ih =>
    obtain ⟨k', v'⟩ := hd
    cases h : k' == k with
    | true => simp [jsSet, jsGet, h]
    | false => simp [jsSet, jsGet, h, ih]

theorem jsHas_jsSet_self (m : JSObj) (k : String) (v : JSVal) :
    jsHas (jsSet m k v) k = true := by
  induction m with
  | nil => simp [jsSet, jsHas]
  | cons hd tl ih =>
    obtain ⟨k', v'⟩ := hd
    cases h : k' == k with
    | true => simp [jsSet, jsHas, h]
    | false => simp [jsSet, jsHas, h, ih]

theorem jsHas_of_jsGet_str (m : JSObj) (k : String) (s : String)
    (h : jsGet m k = JSVal.str s) : jsHas m k = true := by
  induction m with
  | nil => simp [jsGet] at h
  | cons hd tl ih =>
    obtain ⟨k', v'⟩ := hd
    cases hk : k' == k with
    | true => simp [jsHas, hk]
    | false =>
      simp [jsGet, hk] at h
      simp [jsHas, hk, ih h]

theorem jsSet_jsGet_self (m : JSObj) (k : String) (v : JSVal)
    (hh : jsHas m k = true) (hg : jsGet m k = v) : jsSet m k v = m := by
  induction m with
  | nil => simp [jsHas] at hh
  | cons hd tl ih =>
    obtain ⟨k', v'⟩ := hd
    cases hk : k' == k with
    | true =>
      simp [jsGet, hk] at hg
      simp [jsSet, hk, hg]
    | false =>
      simp [jsHas, hk] at hh
      simp [jsGet, hk] at hg
      simp [jsSet, hk, ih hh hg]

theorem stampLegacyVersion_of_v2 (m : JSObj)
    (h : jsGet m "version" = JSVal.str "2.0") : stampLegacyVersion m = m := by
  unfold stampLegacyVersion
  rw [h]
  simp [isUndefB]

theorem migrateStep00_of_v2 (plat : Platform) (m : JSObj)
    (h : jsGet m "version" = JSVal.str "2.0") : migrateStep00 plat m = m := by
  unfold migrateStep00
  rw [h]
  simp [isStrB, isFalsyB]

theorem migrateStep10_of_v2 (plat : Platform) (m : JSObj)
    (h : jsGet m "version" = JSVal.str "2.0") : migrateStep10 plat m = m := by
  unfold migrateStep10
  rw [h]
  simp [isStrB]

theorem migrate_of_v2 (plat : Platform) (m : JSObj)
    (h : jsGet m "version" = JSVal.str "2.0") (hh : jsHas m "version" = true) :
    migrateContextInitParams plat m = m := by
  unfold migrateContextInitParams
  rw [stampLegacyVersion_of_v2 m h, migrateStep00_of_v2 plat m h,
    migrateStep10_of_v2 plat m h]
  exact jsSet_jsGet_self m "version" _ hh h

theorem migrate_version (plat : Platform) (x : JSObj) :
    jsGet (migrateContextInitParams plat x) "version" = JSVal.str "2.0" := by
  unfold migrateContextInitParams
  exact jsGet_jsSet_self _ _ _

theorem migrate_hasVersion (plat : Platform) (x : JSObj) :
    jsHas (migrateContextInitParams plat x) "version" = true := by
  unfold migrateContextInitParams
  exact jsHas_jsSet_self _ _ _

/-! ## Claim theorems -/

/-- Does the verdict's reason contain the snippet the spec's table row
demands (trivially satisfied when the row demands none)? -/
def snippetSatisfied (v : SafetyVerdict) : Option String → Bool
  | none => true
  | some snip => v.reason.any (fun r => containsSub r snip)

/-- C1: over all 8×3×5 combinations of cache type, flash-attention mode
and backend, `isCacheTypeVSafe` returns exactly the verdict of the table
in spec §4.4 — f16/f32 safe everywhere, a quantized type unsafe with
`off` on any backend, unsafe with `on`/`auto` on `opencl` and `hexagon`
(with the corresponding reason string), safe with `on`/`auto` on `metal`,
`cpu`, `blas`. -/
theorem isCacheTypeVSafe_matches_spec_matrix :
    ∀ (ct : CacheType) (fa : FlashAttnType) (be : BackendType),
      (isCacheTypeVSafe ct.toStr fa be).safe = specVSafe ct fa be ∧
      snippetSatisfied (isCacheTypeVSafe ct.toStr fa be)
        (specVSnippet ct fa be) = true := by
  decide

/-- C10: `isCacheTypeVSafe` classifies every string other than `'f16'`
and `'f32'` (for example the unknown `'q6_k'`) as quantized, so with
`flashAttnType = 'off'` it is unsafe on every backend, with the
quantized-V-requires-flash-attention reason. -/
theorem isCacheTypeVSafe_unknown_string_off_unsafe (s : String)
    (h16 : s ≠ "f16") (h32 : s ≠ "f32") (be : BackendType) :
    isCacheTypeVSafe s .off be =
      { safe := false
        reason := some "Quantized V cache requires flash attention to be enabled" } := by
  have h1 : (s != "f16") = true := by simpa using h16
  have h2 : (s != "f32") = true := by simpa using h32
  simp [isCacheTypeVSafe, isQuantizedCacheType, h1, h2]

/-- Witness for C10 at the concrete unknown cache type `'q6_k'`. -/
theorem isCacheTypeVSafe_unknown_string_off_unsafe_witness :
    isCacheTypeVSafe "q6_k" .off .metal =
      { safe := false
        reason := some "Quantized V cache requires flash attention to be enabled" } :=
  isCacheTypeVSafe_unknown_string_off_unsafe "q6_k" (by decide) (by decide) .metal

/-- A well-formed v1.0-era blob: it has exactly the ten fields of
`requiredFields` and none of the v2.0 fields. -/
def tenFieldParams : JSObj :=
  [("version", .str "1.0"),
   ("n_ctx", .num 2048),
   ("n_batch", .num 512),
   ("n_ubatch", .num 512),
   ("n_threads", .num 4),
   ("cache_type_k", .str "f16"),
   ("cache_type_v", .str "f16"),
   ("n_gpu_layers", .num 99),
   ("use_mlock", .bool false),
   ("use_mmap", .str "true")]

/-- C9 counterexample: `validateContextInitParams` accepts an object that
lacks `flash_attn_type`, `kv_unified` and `n_parallel`, so it is not the
claimed conjunction over all thirteen current-schema fields. -/
theorem validateContextInitParams_not_thirteen_fields :
    validateContextInitParams tenFieldParams = true ∧
    jsHas tenFieldParams "flash_attn_type" = false ∧
    jsHas tenFieldParams "kv_unified" = false ∧
    jsHas tenFieldParams "n_parallel" = false := by
  decide

/-- C9 amended: `validateContextInitParams value` returns `true` iff the
ten fields of `requiredFields` — `version`, `n_ctx`, `n_batch`,
`n_ubatch`, `n_threads`, `cache_type_k`, `cache_type_v`, `n_gpu_layers`,
`use_mlock`, `use_mmap` — are all present in `value`; the v2.0 fields
`flash_attn_type`, `kv_unified`, `n_parallel` (and `devices`) are
deliberately not required. -/
theorem validateContextInitParams_checks_ten_fields (params : JSObj) :
    validateContextInitParams params = true ↔
      (jsHas params "version" = true ∧
       jsHas params "n_ctx" = true ∧
       jsHas params "n_batch" = true ∧
       jsHas params "n_ubatch" = true ∧
       jsHas params "n_threads" = true ∧
       jsHas params "cache_type_k" = true ∧
       jsHas params "cache_type_v" = true ∧
       jsHas params "n_gpu_layers" = true ∧
       jsHas params "use_mlock" = true ∧
       jsHas params "use_mmap" = true) := by
  simp [validateContextInitParams, requiredFields]

/-- C2: migration is idempotent — `migrate (migrate x) = migrate x` for
every input object, and an object already stamped with the current
schema version is returned unchanged (the final version stamp rewrites
the same value in place). -/
theorem migrateContextInitParams_idempotent (plat : Platform) (x : JSObj) :
    migrateContextInitParams plat (migrateContextInitParams plat x) =
      migrateContextInitParams plat x ∧
    (jsGet x "version" = JSVal.str CURRENT_CONTEXT_INIT_PARAMS_VERSION →
      migrateContextInitParams plat x = x) := by
  constructor
  · exact migrate_of_v2 plat _ (migrate_version plat x) (migrate_hasVersion plat x)
  · intro h
    exact migrate_of_v2 plat x h (jsHas_of_jsGet_str x "version" "2.0" h)

/-- Witness for C2 at the concrete default configuration (already at the
current schema version). -/
theorem migrateContextInitParams_idempotent_witness :
    migrateContextInitParams .android
        (migrateContextInitParams .android (createDefaultContextInitParams .android)) =
      migrateContextInitParams .android (createDefaultContextInitParams .android) ∧
    migrateContextInitParams .android (createDefaultContextInitParams .android) =
      createDefaultContextInitParams .android :=
  ⟨(migrateContextInitParams_idempotent .android (createDefaultContextInitParams .android)).1,
   (migrateContextInitParams_idempotent .android (createDefaultContextInitParams .android)).2 rfl⟩

/-- C3: the migrator is a total function (no operation of the source —
object spread, property reads, assignments — can throw), and the
spec-modelled loading pipeline always yields a structurally valid
configuration, degrading to `createDefaultContextInitParams` exactly when
the migrated blob is unrecoverably malformed. -/
theorem loadContextInitParams_total_and_defaults (plat : Platform) (blob : JSVal) :
    validateContextInitParams (loadContextInitParams plat blob) = true ∧
    (validateContextInitParams
        (migrateContextInitParams plat (toFields blob)) = false →
      loadContextInitParams plat blob = createDefaultContextInitParams plat) := by
  have hdef : validateContextInitParams (createDefaultContextInitParams plat) = true := by
    cases plat <;> rfl
  constructor
  · cases hv : validateContextInitParams (migrateContextInitParams plat (toFields blob)) with
    | true => simp [loadContextInitParams, hv]
    | false => simpa [loadContextInitParams, hv] using hdef
  · intro hv
    simp [loadContextInitParams, hv]

/-- Witness for C3 at the concrete malformed blob `null`: migration of
`{...null} = {}` yields an object with no `n_ctx`, which fails
validation, so the pipeline falls back to the default configuration. -/
theorem loadContextInitParams_total_and_defaults_witness :
    validateContextInitParams (loadContextInitParams .android .null) = true ∧
    loadContextInitParams .android .null = createDefaultContextInitParams .android :=
  ⟨(loadContextInitParams_total_and_defaults .android .null).1,
   (loadContextInitParams_total_and_defaults .android .null).2 rfl⟩

/-- A blob stamped by a future schema version this migrator does not
know. -/
def futureVersionParams : JSObj := [("version", .str "3.0")]

/-- C4 counterexample: a blob carrying version `"3.0"` — newer than the
migrator knows — is stamped back down to `"2.0"`, so the version of the
output is an earlier schema version than the input's: migration does not
only ever move the version forward. -/
theorem migrate_version_not_monotonic :
    jsGet futureVersionParams "version" = JSVal.str "3.0" ∧
    jsGet (migrateContextInitParams .android futureVersionParams) "version" =
      JSVal.str "2.0" ∧
    versionLe "3.0" "2.0" = false := by
  refine ⟨rfl, rfl, ?_⟩
  decide

/-- C4 amended: for every input whose version tag is one of the schema
versions the migrator knows (`"0.0"`, `"1.0"`, `"2.0"`), the version is
monotonic — the output is stamped with the current version `"2.0"`, never
an earlier version than the input's; a version tag newer than the
migrator knows is however stamped back down to `"2.0"`. -/
theorem migrate_version_monotonic_on_known_versions (plat : Platform)
    (x : JSObj) (v : String) (_hv : jsGet x "version" = JSVal.str v)
    (hknown : v ∈ ["0.0", "1.0", "2.0"]) :
    versionLe v "2.0" = true ∧
    jsGet (migrateContextInitParams plat x) "version" = JSVal.str "2.0" := by
  refine ⟨?_, migrate_version plat x⟩
  simp only [List.mem_cons, List.not_mem_nil, or_false] at hknown
  rcases hknown with h | h | h
  · rw [h]; decide
  · rw [h]; decide
  · rw [h]; decide

/-- Witness for the amended C4 at a concrete v1.0 blob. -/
theorem migrate_version_monotonic_on_known_versions_witness :
    versionLe "1.0" "2.0" = true ∧
    jsGet (migrateContextInitParams .ios [("version", JSVal.str "1.0")])
      "version" = JSVal.str "2.0" :=
  migrate_version_monotonic_on_known_versions .ios
    [("version", JSVal.str "1.0")] "1.0" rfl (by decide)

/-- C5: `inferBackendType` follows the ordered rules of spec §4.3: a
non-empty devices list is resolved by its first entry — `"metal"`
(case-insensitively) to Metal, `"cpu"` to CPU, a name starting with
`"HTP"` to Hexagon, anything else to OpenCL on Android and to CPU
elsewhere; an absent or empty list resolves to Metal on iOS, and
elsewhere to OpenCL exactly when the capability probe reports a
gpu-typed device (a failed probe reports the empty list, hence CPU). -/
theorem inferBackendType_ordered_rules (plat : Platform)
    (probe : ProbeOutcome) (d : String) (rest : List String) :
    (strToLower d = "metal" →
      inferBackendType plat (some (d :: rest)) probe = .metal) ∧
    (strToLower d = "cpu" →
      inferBackendType plat (some (d :: rest)) probe = .cpu) ∧
    (strToLower d ≠ "metal" → strToLower d ≠ "cpu" → strStarts d "HTP" = true →
      inferBackendType plat (some (d :: rest)) probe = .hexagon) ∧
    (strToLower d ≠ "metal" → strToLower d ≠ "cpu" → strStarts d "HTP" = false →
      inferBackendType plat (some (d :: rest)) probe =
        (if plat = .android then .opencl else .cpu)) ∧
    (inferBackendType .ios none probe = .metal) ∧
    (inferBackendType .ios (some []) probe = .metal) ∧
    (plat ≠ .ios →
      inferBackendType plat none probe =
        (if (getAvailableDevices probe).any (fun dv => dv.type == "gpu")
         then .opencl else .cpu)) ∧
    (plat ≠ .ios →
      inferBackendType plat (some []) probe =
        (if (getAvailableDevices probe).any (fun dv => dv.type == "gpu")
         then .opencl else .cpu)) ∧
    (getAvailableDevices (.error ()) = []) := by
  refine ⟨?_, ?_, ?_, ?_, ?_, ?_, ?_, ?_, rfl⟩
  · intro h
    have hm : (strToLower d == "metal") = true := by simpa using h
    simp [inferBackendType, hm]
  · intro h
    have hm : (strToLower d == "metal") = false := by
      simp [h]
    have hc : (strToLower d == "cpu") = true := by simpa using h
    simp [inferBackendType, hm, hc]
  · intro hm' hc' hh
    have hm : (strToLower d == "metal") = false := by simpa using hm'
    have hc : (strToLower d == "cpu") = false := by simpa using hc'
    simp [inferBackendType, hm, hc, hh]
  · intro hm' hc' hh
    have hm : (strToLower d == "metal") = false := by simpa using hm'
    have hc : (strToLower d == "cpu") = false := by simpa using hc'
    cases plat <;> simp [inferBackendType, hm, hc, hh]
  · rfl
  · rfl
  · intro hp
    cases plat with
    | ios => exact absurd rfl hp
    | android => simp [inferBackendType]
    | web => simp [inferBackendType]
  · intro hp
    cases plat with
    | ios => exact absurd rfl hp
    | android => simp [inferBackendType]
    | web => simp [inferBackendType]

/-- Witness for C5 at concrete inputs covering the rules. -/
theorem inferBackendType_ordered_rules_witness :
    inferBackendType .ios (some ["Metal"]) (.ok none) = .metal ∧
    inferBackendType .android (some ["CPU"]) (.ok none) = .cpu ∧
    inferBackendType .android (some ["HTP:0"]) (.ok none) = .hexagon ∧
    inferBackendType .android (some ["Adreno 730"]) (.ok none) = .opencl ∧
    inferBackendType .android none
      (.ok (some [{ deviceName := some "Adreno 730", type := "gpu" }])) = .opencl := by
  refine ⟨?_, ?_, ?_, ?_, ?_⟩
  · exact (inferBackendType_ordered_rules .ios (.ok none) "Metal" []).1 (by decide)
  · exact (inferBackendType_ordered_rules .android (.ok none) "CPU" []).2.1 (by decide)
  · exact (inferBackendType_ordered_rules .android (.ok none) "HTP:0" []).2.2.1
      (by decide) (by decide) (by decide)
  · exact (inferBackendType_ordered_rules .android (.ok none) "Adreno 730" []).2.2.2.1
      (by decide) (by decide) (by decide)
  · exact (inferBackendType_ordered_rules .android
      (.ok (some [{ deviceName := some "Adreno 730", type := "gpu" }])) "" []).2.2.2.2.2.2.1
      (by decide)

/-- C6: selecting a `DeviceOption` resets `flash_attn_type` to the
option's `default_flash_attn_type` exactly when the currently configured
value (read with the platform default when unset) is not a member of the
option's `valid_flash_attn_types`; otherwise the existing preference is
left unchanged. -/
theorem handleDeviceSelect_flash_attn_contract (plat : Platform)
    (option : DeviceOption) (st : SelectState) :
    (currentFlashAttn plat { st with devices := option.devices }
        ∉ option.valid_flash_attn_types →
      (handleDeviceSelect plat option st).flash_attn_type =
        some option.default_flash_attn_type) ∧
    (currentFlashAttn plat { st with devices := option.devices }
        ∈ option.valid_flash_attn_types →
      (handleDeviceSelect plat option st).flash_attn_type =
        st.flash_attn_type) := by
  constructor
  · intro h
    simp [handleDeviceSelect, h]
  · intro h
    simp [handleDeviceSelect, h]

/-- Witness for C6: selecting the Android OpenCL gpu option (valid
flash-attention list `[off]`) while `flash_attn_type` is `auto` changes
it to `off`. -/
theorem handleDeviceSelect_flash_attn_contract_witness :
    (handleDeviceSelect .android
        (androidGpuOption { deviceName := some "Adreno 730", type := "gpu" })
        { devices := none, flash_attn_type := some .auto }).flash_attn_type =
      some .off :=
  (handleDeviceSelect_flash_attn_contract .android
      (androidGpuOption { deviceName := some "Adreno 730", type := "gpu" })
      { devices := none, flash_attn_type := some .auto }).1 (by decide)

theorem androidDeviceOptions_cpu_only (devs : List NativeDev)
    (hg : devs.any isGpuDev = false) (hh : devs.any isHTPDev = false) :
    androidDeviceOptions devs = [androidCpuOption] := by
  have hfind : devs.find? isGpuDev = none := by
    rw [List.find?_eq_none]
    intro x hx
    rw [List.any_eq_false] at hg
    exact hg x hx
  have hfil : devs.filter isHTPDev = [] := by
    rw [List.filter_eq_nil_iff]
    intro x hx
    rw [List.any_eq_false] at hh
    exact hh x hx
  simp [androidDeviceOptions, hfind, hfil]

theorem androidDeviceOptions_gpu_iff (devs : List NativeDev) :
    (androidDeviceOptions devs).any (fun o => o.id == .gpu) =
      devs.any isGpuDev := by
  cases hfind : devs.find? isGpuDev with
  | none =>
    have hg : devs.any isGpuDev = false := by
      cases hany : devs.any isGpuDev with
      | false => rfl
      | true =>
        rw [List.any_eq_true] at hany
        obtain ⟨x, hx, hpx⟩ := hany
        have hs : (devs.find? isGpuDev).isSome = true :=
          List.find?_isSome.mpr ⟨x, hx, hpx⟩
        rw [hfind] at hs
        cases hs
    rw [hg]
    cases hfil : devs.filter isHTPDev with
    | nil =>
      simp [androidDeviceOptions, hfind, hfil, androidCpuOption]
    | cons a rest =>
      simp [androidDeviceOptions, hfind, hfil, androidCpuOption, androidHexagonOption]
  | some g =>
    have hg : devs.any isGpuDev = true := by
      rw [List.any_eq_true]
      exact ⟨g, List.mem_of_find?_eq_some hfind, List.find?_some hfind⟩
    rw [hg]
    cases hfil : devs.filter isHTPDev with
    | nil => simp [androidDeviceOptions, hfind, hfil, androidGpuOption]
    | cons a rest => simp [androidDeviceOptions, hfind, hfil, androidGpuOption]

theorem androidDeviceOptions_hexagon_iff (devs : List NativeDev) :
    (androidDeviceOptions devs).any (fun o => o.id == .hexagon) =
      devs.any isHTPDev := by
  cases hfil : devs.filter isHTPDev with
  | nil =>
    have hh : devs.any isHTPDev = false := by
      cases hany : devs.any isHTPDev with
      | false => rfl
      | true =>
        rw [List.any_eq_true] at hany
        obtain ⟨x, hx, hpx⟩ := hany
        have : x ∈ devs.filter isHTPDev := List.mem_filter.mpr ⟨hx, hpx⟩
        rw [hfil] at this
        cases this
    rw [hh]
    cases hfind : devs.find? isGpuDev with
    | none => simp [androidDeviceOptions, hfind, hfil, androidCpuOption]
    | some g => simp [androidDeviceOptions, hfind, hfil, androidCpuOption, androidGpuOption]
  | cons a rest =>
    have hh : devs.any isHTPDev = true := by
      rw [List.any_eq_true]
      have ha : a ∈ devs.filter isHTPDev := by
        rw [hfil]
        exact List.mem_cons_self a rest
      rw [List.mem_filter] at ha
      exact ⟨a, ha.1, ha.2⟩
    rw [hh]
    cases hfind : devs.find? isGpuDev with
    | none => simp [androidDeviceOptions, hfind, hfil, androidHexagonOption]
    | some g => simp [androidDeviceOptions, hfind, hfil, androidGpuOption, androidHexagonOption]

/-- C7: on Android, when the probe reports no gpu-typed device and no
device whose name starts with `"HTP"`, `getDeviceOptions` returns exactly
the single CPU option (`id = cpu`, `n_gpu_layers = 0`,
`default_flash_attn_type = off`); a gpu option appears in the catalog iff
the probe reports a gpu-typed device, and a hexagon option iff it reports
an HTP device. -/
theorem getDeviceOptions_android_catalog (probe : ProbeOutcome) :
    ((getAvailableDevices probe).any isGpuDev = false →
     (getAvailableDevices probe).any isHTPDev = false →
      getDeviceOptions .android probe = [androidCpuOption]) ∧
    androidCpuOption.id = .cpu ∧
    androidCpuOption.n_gpu_layers = 0 ∧
    androidCpuOption.default_flash_attn_type = .off ∧
    ((getDeviceOptions .android probe).any (fun o => o.id == .gpu) =
      (getAvailableDevices probe).any isGpuDev) ∧
    ((getDeviceOptions .android probe).any (fun o => o.id == .hexagon) =
      (getAvailableDevices probe).any isHTPDev) := by
  refine ⟨?_, rfl, rfl, rfl, ?_, ?_⟩
  · intro hg hh
    exact androidDeviceOptions_cpu_only (getAvailableDevices probe) hg hh
  · exact androidDeviceOptions_gpu_iff (getAvailableDevices probe)
  · exact androidDeviceOptions_hexagon_iff (getAvailableDevices probe)

/-- Witness for C7 at a concrete probe result with a single cpu-typed
device (no gpu, no HTP). -/
theorem getDeviceOptions_android_catalog_witness :
    getDeviceOptions .android
        (.ok (some [{ deviceName := some "CPU", type := "cpu" }])) =
      [androidCpuOption] :=
  (getDeviceOptions_android_catalog
      (.ok (some [{ deviceName := some "CPU", type := "cpu" }]))).1
    (by decide) (by decide)

/-- C8: every `DeviceOption` the catalog builder returns — on every
platform and for every probe outcome — has a `default_flash_attn_type`
that is a member of its own `valid_flash_attn_types`, which is therefore
never empty. -/
theorem deviceOption_default_in_valid (plat : Platform)
    (probe : ProbeOutcome) (opt : DeviceOption)
    (hmem : opt ∈ getDeviceOptions plat probe) :
    opt.default_flash_attn_type ∈ opt.valid_flash_attn_types ∧
    opt.valid_flash_attn_types ≠ [] := by
  cases plat with
  | ios =>
    simp [getDeviceOptions] at hmem
    rcases hmem with rfl | rfl | rfl <;> decide
  | android =>
    simp only [getDeviceOptions] at hmem
    rw [show ((Platform.android == Platform.ios) = false) from rfl] at hmem
    simp only [Bool.false_eq_true, if_false, androidDeviceOptions,
      List.mem_append, List.mem_singleton] at hmem
    rcases hmem with (rfl | hmem) | hmem
    · decide
    · cases hfind : (getAvailableDevices probe).find? isGpuDev with
      | none => rw [hfind] at hmem; cases hmem
      | some g =>
        rw [hfind] at hmem
        simp at hmem
        subst hmem
        constructor
        · simp [androidGpuOption]
        · simp [androidGpuOption]
    · by_cases hhex : ((getAvailableDevices probe).filter isHTPDev).length > 0
      · rw [if_pos hhex] at hmem
        simp at hmem
        subst hmem
        constructor
        · simp [androidHexagonOption]
        · simp [androidHexagonOption]
      · rw [if_neg hhex] at hmem
        cases hmem
  | web =>
    simp only [getDeviceOptions] at hmem
    rw [show ((Platform.web == Platform.ios) = false) from rfl] at hmem
    simp only [Bool.false_eq_true, if_false, androidDeviceOptions,
      List.mem_append, List.mem_singleton] at hmem
    rcases hmem with (rfl | hmem) | hmem
    · decide
    · cases hfind : (getAvailableDevices probe).find? isGpuDev with
      | none => rw [hfind] at hmem; cases hmem
      | some g =>
        rw [hfind] at hmem
        simp at hmem
        subst hmem
        constructor
        · simp [androidGpuOption]
        · simp [androidGpuOption]
    · by_cases hhex : ((getAvailableDevices probe).filter isHTPDev).length > 0
      · rw [if_pos hhex] at hmem
        simp at hmem
        subst hmem
        constructor
        · simp [androidHexagonOption]
        · simp [androidHexagonOption]
      · rw [if_neg hhex] at hmem
        cases hmem

/-- Witness for C8 at the concrete iOS auto option. -/
theorem deviceOption_default_in_valid_witness :
    iosAutoOption.default_flash_attn_type ∈ iosAutoOption.valid_flash_attn_types ∧
    iosAutoOption.valid_flash_attn_types ≠ [] :=
  deviceOption_default_in_valid .ios (.ok none) iosAutoOption (by decide)
